import Mathlib

/-!
Verification of the document ingestion/query/deletion backend
(`backend/main.py`, `backend/pdf_processor.py`).

The Python handlers are shallowly embedded as pure Lean functions over an
explicit environment recording the behaviour of the external collaborators
(blob storage, vector index, ledger store, PDF libraries).  Side effects
(storage downloads, vector-index insert/delete calls, ledger writes) are
made observable through an event trace returned alongside the result, and
every `raise`/`except` in the Python source is modelled with `Except`.
-/

namespace LlamaBackend

/-! ### String primitives mirroring the Python operations used by the backend -/

/-- Python whitespace predicate used by `str.strip()` (ASCII range). -/
def pyIsSpace (c : Char) : Bool :=
  c = ' ' || c = '\t' || c = '\n' || c = '\r' || c = '\x0b' || c = '\x0c'

/-- Python `str.strip()`: remove leading and trailing whitespace. -/
def pyStrip (s : String) : String :=
  ⟨((s.data.dropWhile pyIsSpace).reverse.dropWhile pyIsSpace).reverse⟩

/-- Characters matched by the regex class `\w` (ASCII range). -/
def isWordChar (c : Char) : Bool := c.isAlphanum || c = '_'

/-- Count maximal runs of word characters; the Boolean records whether the
previous character was a word character. -/
def wordCountAux : List Char → Bool → Nat
  | [], _ => 0
  | c :: rest, inw =>
    if isWordChar c then (if inw then 0 else 1) + wordCountAux rest true
    else wordCountAux rest false

/-- Number of words of a string, as `len(re.findall(r'\w+', text))` computes it:
the number of maximal runs of word characters. -/
def pyWordCount (s : String) : Nat := wordCountAux s.data false

/-- Does the list start with the given needle? -/
def seqStarts : List Char → List Char → Bool
  | [], _ => true
  | _ :: _, [] => false
  | a :: ta, b :: tb => a == b && seqStarts ta tb

/-- Does the list contain the needle as a contiguous subsequence? -/
def seqContains (needle : List Char) : List Char → Bool
  | [] => needle.isEmpty
  | b :: bs => seqStarts needle (b :: bs) || seqContains needle bs

/-- Python `pat in hay` substring test. -/
def strContains (hay pat : String) : Bool := seqContains pat.data hay.data

/-- Python `s.startswith(pat)`. -/
def strStarts (s pat : String) : Bool := seqStarts pat.data s.data

/-- Python `s.lower()` (ASCII range). -/
def pyLower (s : String) : String := ⟨s.data.map Char.toLower⟩

/-! ### `pdf_processor.is_meaningful_text` -/

/-- Embedding of `is_meaningful_text(text, min_length, min_words)` from
`backend/pdf_processor.py`: reject when the stripped text is shorter than
`min_length`, when fewer than `min_words` regex words occur, or when the text
contains no space character `' '`. -/
def is_meaningful_textAt (text : String) (min_length min_words : Nat) : Bool :=
  if text = "" || (pyStrip text).length < min_length then false
  else if pyWordCount text < min_words then false
  else if !(strContains text " ") then false
  else true

/-- `is_meaningful_text` with the default thresholds (50 characters, 10 words). -/
def is_meaningful_text (text : String) : Bool := is_meaningful_textAt text 50 10

/-! ### `pdf_processor.extract_text_with_ocr_fallback`

The structural pass (`extract_text_from_pdf`) and the OCR pass
(`perform_ocr_on_pdf`) call external PDF/OCR libraries; their outcomes are
parameters of the embedding: `.ok text` when the pass returns, `.error msg`
when it raises (the message is Python `str(e)`). -/

/-- Python `a or dflt` for an optional/possibly-empty string. -/
def pyOrElse (a : Option String) (dflt : String) : String :=
  match a with
  | some m => if m = "" then dflt else m
  | none => dflt

/-- Placeholder returned when no extraction method produced text. -/
def failPlaceholder (reason : String) : String :=
  "[PDF processing failed: " ++ reason ++ "]"

/-- Second phase of `extract_text_with_ocr_fallback`: `standard` is the text of
the structural pass (`""` when that pass raised), `errMsg` the structural
pass's exception message if any, `ocr` the outcome of `perform_ocr_on_pdf`. -/
def ocrPhase (standard : String) (errMsg : Option String)
    (ocr : Except String String) : String × Bool :=
  match ocr with
  | .ok ot =>
    if is_meaningful_text ot then (ot, true)
    else
      if !(is_meaningful_text standard) && !(is_meaningful_text ot) then
        let combined := standard ++ "\n\n" ++ ot
        if pyStrip combined ≠ "" then (combined, true)
        else (failPlaceholder (pyOrElse errMsg "No text could be extracted"), false)
      else
        (if standard ≠ "" then standard else ot, ot != "")
  | .error ocrErr =>
    if standard ≠ "" then (standard, false)
    else (failPlaceholder (pyOrElse errMsg ocrErr), false)

/-- Embedding of `extract_text_with_ocr_fallback(file_content)` from
`backend/pdf_processor.py`, parameterised by the outcomes of the structural
pass and of the OCR pass on that content.  Returns the extracted text and the
flag recording whether OCR was used. -/
def extract_text_with_ocr_fallback (structural ocr : Except String String) :
    String × Bool :=
  match structural with
  | .ok st =>
    if is_meaningful_text st then (st, false)
    else ocrPhase st none ocr
  | .error msg => ocrPhase "" (some msg) ocr

/-! ### Data model for the `/process` handler (`process_file` in `backend/main.py`) -/

/-- Parsed JSON body of a `/process` request; `none` fields are absent keys.
`size` is the caller-declared byte size (`data.get("size", 0)`). -/
structure Req where
  file_id : Option String
  supabase_file_path : Option String
  name : Option String
  type : Option String
  description : Option String
  user_id : Option String
  size : Option Nat
  deriving Repr, DecidableEq

/-- Observations the handler makes of a downloaded byte string: its length,
whether it starts with the `%PDF` magic, and its UTF-8 decoding
(`none` models a `UnicodeDecodeError`). -/
structure Content where
  size : Nat
  isPdfMagic : Bool
  utf8 : Option String
  deriving Repr, DecidableEq

/-- A chunk (node) produced by the splitter: its text and its metadata map. -/
structure Chunk where
  text : String
  metadata : List (String × String)
  deriving Repr, DecidableEq

/-- Credential level used for a storage access. -/
inductive Cred
  | regular
  | service
  deriving Repr, DecidableEq

/-- Observable side effects of the `/process` handler, in order of occurrence:
storage download attempts, embedding computation, the batched vector-index
insertion call (with the number of nodes passed), and the ledger write. -/
inductive Ev
  | download (cred : Cred) (path : String)
  | embed (n : Nat)
  | insertCall (n : Nat)
  | ledgerInsert
  deriving Repr, DecidableEq

/-- Kind of each `HTTPException` the embedded handlers can raise. -/
inductive ErrKind
  | invalidJson
  | missingFields
  | oversize
  | notFound
  | permissionDenied
  | downloadOther
  | contentProcessing
  | dimensionMismatch
  | rateLimit
  | indexOther
  | deleteCheck
  deriving Repr, DecidableEq

/-- An HTTP error: status code and the kind of the raising site. -/
structure HttpErr where
  status : Nat
  kind : ErrKind
  deriving Repr, DecidableEq

/-- Behaviour of the external collaborators during one `/process` request.
`dlReg`/`dlSvc` are storage downloads under regular and service-role
credentials (`dlSvc` returns `none` on failure, as
`download_file_with_service_role` does); `pdfStructural`/`pdfOcr` are the two
PDF extraction passes; `chunker` is `SentenceSplitter.get_nodes_from_documents`
on the extracted text; `insertNodes` is the outcome of `index.insert_nodes`;
`ledgerInsert` is the outcome of the ledger write (its failure is only
logged, never surfaced). -/
structure PEnv where
  dlReg : String → Except String Content
  dlSvc : String → Option Content
  pdfStructural : Content → Except String String
  pdfOcr : Content → Except String String
  chunker : String → List Chunk
  insertNodes : List Chunk → Except String Unit
  ledgerInsert : Except String Unit

/-- Maximum accepted declared size: 30 MiB. -/
def MAX_SIZE_BYTES : Nat := 30 * 1024 * 1024

/-- Python truthiness of an optional string (absent and `""` are falsy). -/
def truthyStr : Option String → Option String
  | some s => if s = "" then none else some s
  | none => none

/-- Python truthiness of a service-role download result: `None` and empty
bytes are falsy. -/
def svcTruthy : Option Content → Option Content
  | some c => if c.size = 0 then none else some c
  | none => none

/-- Message of the exception synthesized when every download attempt failed. -/
def allFailMsg : String :=
  "Failed to download file with all path formats and auth methods. See logs for details."

/-- Message of the exception raised on an empty download response. -/
def emptyRespMsg : String :=
  "Failed to download file from Supabase - empty response"

/-- Classification of a download failure by its lowercased message, as the
`except` block of the download section does: not-found (404), permission
denied (403), otherwise a generic 500. -/
def classifyDownloadErr (msg : String) : HttpErr :=
  let m := pyLower msg
  if strContains m "not found" then ⟨404, .notFound⟩
  else if strContains m "permission" || strContains m "access" || strContains m "denied" then
    ⟨403, .permissionDenied⟩
  else ⟨500, .downloadOther⟩

/-- The multi-path download chain: regular then service credentials on the
declared path, then (only when `user_id` is truthy) on `user_id/file_id`,
then on the bare `file_id`; first success wins.  Returns the outcome (the
failure message when every attempt failed) and the ordered download trace. -/
def downloadChain (env : PEnv) (orig fid : String) (uid : Option String) :
    Except String Content × List Ev :=
  match env.dlReg orig with
  | .ok c => (.ok c, [.download .regular orig])
  | .error origErr =>
    let ev0 : List Ev := [.download .regular orig, .download .service orig]
    match svcTruthy (env.dlSvc orig) with
    | some c => (.ok c, ev0)
    | none =>
      match uid with
      | some u =>
        let alt := u ++ "/" ++ fid
        match env.dlReg alt with
        | .ok c => (.ok c, ev0 ++ [.download .regular alt])
        | .error _ =>
          let ev1 := ev0 ++ [Ev.download .regular alt, Ev.download .service alt]
          match svcTruthy (env.dlSvc alt) with
          | some c => (.ok c, ev1)
          | none =>
            match env.dlReg fid with
            | .ok c => (.ok c, ev1 ++ [.download .regular fid])
            | .error _ =>
              let ev2 := ev1 ++ [Ev.download .regular fid, Ev.download .service fid]
              match svcTruthy (env.dlSvc fid) with
              | some c => (.ok c, ev2)
              | none => (.error allFailMsg, ev2)
      | none => (.error origErr, ev0)

/-- Download chain followed by the empty-response check and the message-based
error classification of the surrounding `except` block. -/
def downloadPhase (env : PEnv) (orig fid : String) (uid : Option String) :
    Except HttpErr Content × List Ev :=
  let r := downloadChain env orig fid uid
  match r.1 with
  | .ok c =>
    if c.size = 0 then (.error (classifyDownloadErr emptyRespMsg), r.2)
    else (.ok c, r.2)
  | .error msg => (.error (classifyDownloadErr msg), r.2)

/-- Is the declared type decoded directly as UTF-8 text? -/
def isTextLike (ty : String) : Bool :=
  strStarts ty "text/" || ty = "application/json" || ty = "application/xml"
    || ty = "application/csv"

/-- Content-processing stage (the `try` block decoding `file_content`): UTF-8
decode for text-like types, the PDF pipeline for `application/pdf`, rejection
otherwise.  Any failure in this block — including the `HTTPException`s raised
inside it — is caught by its `except Exception` clause and surfaced as a
500 content-processing error, which `.error ()` stands for. -/
def extractStage (env : PEnv) (ty fname : String) (c : Content) :
    Except Unit String :=
  if isTextLike ty then
    match c.utf8 with
    | some s => .ok s
    | none => .error ()
  else if ty = "application/pdf" then
    let r := extract_text_with_ocr_fallback (env.pdfStructural c) (env.pdfOcr c)
    if r.1 = "" || (pyStrip r.1).length = 0 then
      if c.isPdfMagic then
        .ok ("[This PDF document could not be processed: " ++ fname ++ "]")
      else .ok r.1
    else .ok r.1
  else .error ()

/-- Overwrite one key of a chunk's metadata map. -/
def setMeta (k v : String) (m : List (String × String)) : List (String × String) :=
  (k, v) :: m.filter (fun p => p.1 ≠ k)

/-- Stamp `supabase_file_id` onto a chunk's metadata (the per-node loop before
insertion). -/
def stamp (fid : String) (c : Chunk) : Chunk :=
  ⟨c.text, setMeta "supabase_file_id" fid c.metadata⟩

/-- Classification of an `insert_nodes` failure by its lowercased message:
dimension mismatch (500), rate limit (429), otherwise a generic 500. -/
def classifyIndexErr (msg : String) : HttpErr :=
  let m := pyLower msg
  if strContains m "dimension" then ⟨500, .dimensionMismatch⟩
  else if strContains m "rate limit" || strContains m "too many requests" then
    ⟨429, .rateLimit⟩
  else ⟨500, .indexOther⟩

/-- Chunking and indexing stage: split the text, stamp the file id onto every
node, call `index.insert_nodes` once with the whole batch (embeddings are
computed inside that call, hence the `embed` event preceding it when the
batch is non-empty), then attempt the ledger write, whose outcome is only
logged. -/
def indexStage (env : PEnv) (fid fileText : String) :
    Except HttpErr Nat × List Ev :=
  let nodes := (env.chunker fileText).map (stamp fid)
  let n := nodes.length
  let evs := (if n = 0 then ([] : List Ev) else [.embed n]) ++ [Ev.insertCall n]
  match env.insertNodes nodes with
  | .ok _ => (.ok n, evs ++ [.ledgerInsert])
  | .error msg => (.error (classifyIndexErr msg), evs)

deriving instance DecidableEq for Except

/-- Result and event trace of one `/process` request. -/
structure POut where
  result : Except HttpErr Nat
  trace : List Ev
  deriving Repr, DecidableEq

/-- Embedding of the `/process` handler `process_file` from `backend/main.py`
(the service clients are assumed initialized, which the handler checks
first).  `body` is the parsed request, `none` when JSON parsing failed.
The stages run in source order: required-field check, declared-size check,
download, content processing, chunking/indexing/ledger. -/
def process_file (env : PEnv) (body : Option Req) : POut :=
  match body with
  | none => ⟨.error ⟨400, .invalidJson⟩, []⟩
  | some req =>
    match truthyStr req.file_id, truthyStr req.supabase_file_path with
    | some fid, some path =>
      if req.size.getD 0 > MAX_SIZE_BYTES then ⟨.error ⟨413, .oversize⟩, []⟩
      else
        let dl := downloadPhase env path fid (truthyStr req.user_id)
        match dl.1 with
        | .error e => ⟨.error e, dl.2⟩
        | .ok c =>
          match extractStage env (req.type.getD "text/plain") (req.name.getD "Unknown") c with
          | .error _ => ⟨.error ⟨500, .contentProcessing⟩, dl.2⟩
          | .ok txt =>
            let ix := indexStage env fid txt
            ⟨ix.1, dl.2 ++ ix.2⟩
    | _, _ => ⟨.error ⟨400, .missingFields⟩, []⟩

/-! ### The `/delete/{file_id}` handler (`delete_file` in `backend/main.py`) -/

/-- Behaviour of the collaborators during one delete request: the ledger
lookup (`.ok n` returns `n` matching rows, `.error` models a raise), the
ledger delete, whether the Pinecone configuration guard
(`PINECONE_API_KEY and PINECONE_ENVIRONMENT and index`) holds, and the two
vector-delete attempts (via the index, then directly against Pinecone). -/
structure DEnv where
  ledgerRows : Except String Nat
  ledgerDelete : Except String Unit
  pineconeConfigured : Bool
  idxDelete : Except String Unit
  pcDelete : Except String Unit

/-- Observable side effects of a delete request, in order: the ledger lookup,
the ledger delete, and the vector-delete attempts, each filtered on the
given `supabase_file_id`. -/
inductive DEv
  | ledgerSelect (fid : String)
  | ledgerDelete (fid : String)
  | vectorDeleteIdx (fid : String)
  | vectorDeletePc (fid : String)
  deriving Repr, DecidableEq

/-- Successful responses of the delete handler: the file was tracked and
deleted, or it was untracked (`found = False`) and nothing was done. -/
inductive DRes
  | deleted
  | notTracked
  deriving Repr, DecidableEq

/-- Embedding of the `/delete/{file_id}` handler `delete_file` from
`backend/main.py` (authentication and client initialization assumed to have
passed).  A raise during lookup or ledger delete becomes a 500; failure of
either vector-delete attempt is swallowed (`except ...: pass`) and the
handler still returns success. -/
def delete_file (env : DEnv) (fid : String) : Except HttpErr DRes × List DEv :=
  match env.ledgerRows with
  | .error _ => (.error ⟨500, .deleteCheck⟩, [.ledgerSelect fid])
  | .ok n =>
    if n = 0 then (.ok .notTracked, [.ledgerSelect fid])
    else
      match env.ledgerDelete with
      | .error _ => (.error ⟨500, .deleteCheck⟩, [.ledgerSelect fid, .ledgerDelete fid])
      | .ok _ =>
        if env.pineconeConfigured then
          let evs :=
            match env.idxDelete with
            | .ok _ => [DEv.vectorDeleteIdx fid]
            | .error _ => [DEv.vectorDeleteIdx fid, DEv.vectorDeletePc fid]
          (.ok .deleted, [.ledgerSelect fid, .ledgerDelete fid] ++ evs)
        else (.ok .deleted, [.ledgerSelect fid, .ledgerDelete fid])

/-! ### The `/query` handler (`query` in `backend/main.py`) -/

/-- Behaviour of the collaborators during one query: whether the vector index
was initialized at startup, the outcome of `index.as_query_engine()`, the
outcome of the fire-and-forget query log insert, and the outcome of
`query_engine.query(question)` (`.ok` carries the synthesized answer). -/
structure QEnv where
  indexAvailable : Bool
  engine : Except String Unit
  logOutcome : Except String Unit
  queryOutcome : Except String String

/-- A `/query` request body. -/
structure QReq where
  question : String
  user_id : Option String
  deriving Repr, DecidableEq

/-- Structured responses of the query handler: an answer, or an error object
with its `status` field (`"service_unavailable"`, `"internal_error"`,
`"query_error"`). -/
inductive QRes
  | answer (a : String)
  | errorResult (status : String)
  deriving Repr, DecidableEq

/-- Embedding of the `/query` handler from `backend/main.py`.  The codomain is
`Except HttpErr QRes` so that an uncaught raise would be expressible; the
handler catches every exception and returns a structured body instead, so
every branch is `.ok`.  The logging outcome is ignored (its failure is only
printed). -/
def query (env : QEnv) (_req : QReq) : Except HttpErr QRes :=
  if !env.indexAvailable then .ok (.errorResult "service_unavailable")
  else
    match env.engine with
    | .error _ => .ok (.errorResult "internal_error")
    | .ok _ =>
      match env.queryOutcome with
      | .ok ans => .ok (.answer ans)
      | .error _ => .ok (.errorResult "query_error")

/-- Boolean success test for `Except`. -/
def exceptOk {ε α : Type} : Except ε α → Bool
  | .ok _ => true
  | .error _ => false

/-! ### Concrete requests and environments used by counterexamples and witnesses -/

/-- A well-formed `/process` request: all required fields present, declared
size 100 bytes. -/
def okReq : Req :=
  ⟨some "fid1", some "path1", some "doc.txt", some "text/plain", none, some "user1", some 100⟩

/-- `okReq` with the `size` field absent. -/
def okReqNoSize : Req :=
  ⟨some "fid1", some "path1", some "doc.txt", some "text/plain", none, some "user1", none⟩

/-- A single chunk holding the text `"hello world"`. -/
def chunk1 : Chunk := ⟨"hello world", []⟩

/-- Environment whose regular-credential download of any path succeeds with a
text file decoding to `txt`; chunking and insertion behaviour are the given
parameters. -/
def mkTextEnv (txt : String) (ck : String → List Chunk)
    (ins : List Chunk → Except String Unit) : PEnv :=
  ⟨fun _ => .ok ⟨1, false, some txt⟩, fun _ => none,
   fun _ => .error "not a pdf", fun _ => .error "not a pdf", ck, ins, .ok ()⟩

/-- Environment in which every download attempt fails: regular-credential
downloads raise `e₁`/`e₂`/`e₃` on the declared path, the `user_id/file_id`
path and the bare `file_id` respectively, and the service-role helper always
returns `None`. -/
def mkFailEnv (e₁ e₂ e₃ : String) : PEnv :=
  ⟨fun p => if p = "path1" then .error e₁ else if p = "user1/fid1" then .error e₂ else .error e₃,
   fun _ => none, fun _ => .error "na", fun _ => .error "na",
   fun _ => [], fun _ => .ok (), .ok ()⟩

/-- Environment whose first download attempt succeeds with content `c`;
downstream stages are fixed (empty chunking, successful insertion). -/
def mkFirstOk (c : Content) : PEnv :=
  ⟨fun _ => .ok c, fun _ => none, fun _ => .error "na", fun _ => .error "na",
   fun _ => [], fun _ => .ok (), .ok ()⟩

/-- Environment whose download succeeds with content of length `L` decoding to
`"hello world"`, chunked into one node, with successful insertion. -/
def bigEnv (L : Nat) : PEnv :=
  ⟨fun _ => .ok ⟨L, false, some "hello world"⟩, fun _ => none,
   fun _ => .error "na", fun _ => .error "na",
   fun _ => [chunk1], fun _ => .ok (), .ok ()⟩

/-- Events that are download attempts. -/
def isDownloadEv : Ev → Bool
  | .download _ _ => true
  | _ => false

/-- The download attempts of a trace, in order. -/
def dlEvents (tr : List Ev) : List Ev := tr.filter isDownloadEv

/-- The text of an extraction-pass outcome, `""` when the pass raised (the
value `standard_text` holds when the structural pass raised). -/
def stdText : Except String String → String
  | .ok s => s
  | .error _ => ""

/-- Does a string have the shape of the final extraction placeholder? -/
def isFailPlaceholder (s : String) : Bool := strStarts s "[PDF processing failed: "

/-- Ten five-letter words separated by tabs: 59 characters, 10 words, has
whitespace, but no space character `' '`. -/
def tabText : String :=
  "aaaaa\tbbbbb\tccccc\tddddd\teeeee\tfffff\tggggg\thhhhh\tiiiii\tjjjjj"

/-- Downloaded content observed as an 11-byte non-PDF file decoding to
`"hello world"`. -/
def contentHello : Content := ⟨11, false, some "hello world"⟩

/-- Environment for the dimension-mismatch counterexample: the download
succeeds, the text is chunked into one node, and `insert_nodes` fails with a
Pinecone dimension-mismatch message. -/
def envC1 : PEnv :=
  ⟨fun _ => .ok contentHello, fun _ => none,
   fun _ => .error "na", fun _ => .error "na",
   fun _ => [chunk1],
   fun _ => .error "Vector dimension 1536 does not match the dimension of the index 3072",
   .ok ()⟩

/-- Environment for the zero-chunk counterexample: a one-byte text file whose
text yields no chunks, with a succeeding insertion call. -/
def envC2 : PEnv := mkTextEnv "\n" (fun _ => []) (fun _ => .ok ())

/-- An oversized request (40 MiB declared) that is missing `file_id`. -/
def reqC3 : Req := ⟨none, some "p", none, none, none, none, some (40 * 1024 * 1024)⟩

/-- A well-formed oversized request (30 MiB + 1 byte declared). -/
def reqC3w : Req :=
  ⟨some "f", some "p", none, none, none, none, some (30 * 1024 * 1024 + 1)⟩

/-- Delete environment with no ledger row for the file. -/
def dEnvUntracked : DEnv := ⟨.ok 0, .ok (), true, .ok (), .ok ()⟩

/-- Delete environment with one ledger row, a succeeding ledger delete, and
both vector-delete attempts failing. -/
def dEnvTracked : DEnv := ⟨.ok 1, .ok (), true, .error "idx down", .error "pinecone down"⟩

/-- Query environment in which the engine is created and the query raises. -/
def qEnvBoom : QEnv := ⟨true, .ok (), .error "log down", .error "boom"⟩

/-! ### Helper lemmas -/

theorem strData_append (a b : String) : (a ++ b).data = a.data ++ b.data := rfl

theorem combined_ne_empty (st ot : String) : st ++ "\n\n" ++ ot ≠ "" := by
  intro h
  have h2 := congrArg String.data h
  simp only [strData_append] at h2
  have hm : "\n\n".data ≠ ([] : List Char) := by decide
  exact hm (List.append_eq_nil.mp (List.append_eq_nil.mp h2).1).2

theorem failPlaceholder_ne_empty (r : String) : failPlaceholder r ≠ "" := by
  intro h
  have h2 := congrArg String.data h
  simp only [failPlaceholder, strData_append] at h2
  have hm : "[PDF processing failed: ".data ≠ ([] : List Char) := by decide
  exact hm (List.append_eq_nil.mp (List.append_eq_nil.mp h2).1).1

theorem seqStarts_self_append (l rest : List Char) : seqStarts l (l ++ rest) = true := by
  induction l with
  | nil => rfl
  | cons a ta ih => simp [seqStarts, ih]

theorem isFailPlaceholder_failPlaceholder (r : String) :
    isFailPlaceholder (failPlaceholder r) = true := by
  unfold isFailPlaceholder failPlaceholder strStarts
  simp only [strData_append, List.append_assoc]
  exact seqStarts_self_append _ _

theorem is_meaningful_text_empty : is_meaningful_text "" = false := by decide

/-! ### C4 -/

/-- C4 (counterexample): `tabText` has 59 characters, 10 words and whitespace
characters (tabs), so the claimed biconditional says the meaningfulness check
accepts it, yet `is_meaningful_text` rejects it (it requires a space
character `' '`, and measures the stripped length). -/
theorem C4_counterexample :
    is_meaningful_text tabText = false
    ∧ 50 ≤ tabText.length
    ∧ 10 ≤ pyWordCount tabText
    ∧ tabText.data.any pyIsSpace = true := by decide

/-- C4 (amended): `is_meaningful_text` with default thresholds returns `True`
iff the whitespace-stripped text has at least 50 characters, the text
contains at least 10 words (maximal runs of word characters), and the text
contains at least one space character `' '`. -/
theorem C4_meaningful_characterization (t : String) :
    is_meaningful_text t = true ↔
      (50 ≤ (pyStrip t).length ∧ 10 ≤ pyWordCount t ∧ strContains t " " = true) := by
  unfold is_meaningful_text is_meaningful_textAt
  by_cases h0 : t = ""
  · subst h0
    have h : (pyStrip "").length = 0 := rfl
    simp [h]
  · by_cases h1 : (pyStrip t).length < 50
    · simp [h0, h1]
    · by_cases h2 : pyWordCount t < 10
      · simp [h0, h1, h2]
      · by_cases h3 : strContains t " " = true
        · simp [h0, h1, h2, h3]
          omega
        · simp [h0, h1, h2, h3]

/-- C4 (witness): the characterization applied to a concrete accepted string. -/
theorem C4_witness :
    is_meaningful_text "one two three four five six seven eight nine ten eleven" = true ↔
      (50 ≤ (pyStrip "one two three four five six seven eight nine ten eleven").length
        ∧ 10 ≤ pyWordCount "one two three four five six seven eight nine ten eleven"
        ∧ strContains "one two three four five six seven eight nine ten eleven" " " = true) :=
  C4_meaningful_characterization "one two three four five six seven eight nine ten eleven"

/-! ### C5 -/

/-- C5 (counterexample): with both passes producing non-empty text that fails
the meaningfulness check, extraction returns the concatenation of the two
results, which is neither of them — not "the better of the two non-empty
results". -/
theorem C5_counterexample :
    extract_text_with_ocr_fallback (.ok "alpha beta") (.ok "gamma delta")
      = ("alpha beta\n\ngamma delta", true)
    ∧ "alpha beta\n\ngamma delta" ≠ "alpha beta"
    ∧ "alpha beta\n\ngamma delta" ≠ "gamma delta" := by decide

/-- C5 (amended): when both the structural pass and the OCR pass fail the
meaningfulness check (or raise), `extract_text_with_ocr_fallback` does not
raise and returns non-empty text: when the OCR pass completes, either the
concatenation of the structural text and the OCR text separated by a blank
line, or a placeholder embedding the failure reason; when the OCR pass
raises, either the structural text (when non-empty) or such a placeholder. -/
theorem C5_extraction_total_nonempty (sp op : Except String String)
    (hsp : ∀ t, sp = .ok t → is_meaningful_text t = false)
    (hop : ∀ t, op = .ok t → is_meaningful_text t = false) :
    (extract_text_with_ocr_fallback sp op).1 ≠ ""
    ∧ ((∃ o, op = .ok o ∧
          ((extract_text_with_ocr_fallback sp op).1 = stdText sp ++ "\n\n" ++ o
            ∨ isFailPlaceholder (extract_text_with_ocr_fallback sp op).1 = true))
      ∨ (∃ m, op = .error m ∧
          ((extract_text_with_ocr_fallback sp op).1 = stdText sp
            ∨ isFailPlaceholder (extract_text_with_ocr_fallback sp op).1 = true))) := by
  cases sp with
  | ok st =>
    have hst := hsp st rfl
    cases op with
    | ok ot =>
      have hot := hop ot rfl
      simp only [extract_text_with_ocr_fallback, ocrPhase, hst, hot, Bool.false_eq_true,
        if_false, Bool.not_false, Bool.and_self, if_true]
      by_cases hcomb : pyStrip (st ++ "\n\n" ++ ot) = ""
      · simp only [hcomb, ne_eq, not_true_eq_false, if_false]
        exact ⟨failPlaceholder_ne_empty _,
          .inl ⟨ot, rfl, .inr (isFailPlaceholder_failPlaceholder _)⟩⟩
      · simp only [ne_eq, hcomb, not_false_eq_true, if_true]
        exact ⟨combined_ne_empty st ot, .inl ⟨ot, rfl, .inl rfl⟩⟩
    | error m =>
      simp only [extract_text_with_ocr_fallback, ocrPhase, hst, Bool.false_eq_true, if_false]
      by_cases hstz : st = ""
      · simp only [hstz, ne_eq, not_true_eq_false, if_false]
        exact ⟨failPlaceholder_ne_empty _,
          .inr ⟨m, rfl, .inr (isFailPlaceholder_failPlaceholder _)⟩⟩
      · simp only [ne_eq, hstz, not_false_eq_true, if_true]
        exact ⟨trivial, .inr ⟨m, rfl, .inl rfl⟩⟩
  | error msg =>
    cases op with
    | ok ot =>
      have hot := hop ot rfl
      simp only [extract_text_with_ocr_fallback, ocrPhase, hot, is_meaningful_text_empty,
        Bool.false_eq_true, if_false, Bool.not_false, Bool.and_self, if_true]
      by_cases hcomb : pyStrip ("" ++ "\n\n" ++ ot) = ""
      · simp only [hcomb, ne_eq, not_true_eq_false, if_false]
        exact ⟨failPlaceholder_ne_empty _,
          .inl ⟨ot, rfl, .inr (isFailPlaceholder_failPlaceholder _)⟩⟩
      · simp only [ne_eq, hcomb, not_false_eq_true, if_true]
        exact ⟨combined_ne_empty "" ot, .inl ⟨ot, rfl, .inl rfl⟩⟩
    | error m =>
      simp only [extract_text_with_ocr_fallback, ocrPhase, ne_eq, not_true_eq_false, if_false]
      exact ⟨failPlaceholder_ne_empty _,
        .inr ⟨m, rfl, .inr (isFailPlaceholder_failPlaceholder _)⟩⟩

/-- C5 (witness): the amended theorem applied to two concrete failing passes. -/
theorem C5_witness :
    (extract_text_with_ocr_fallback (.ok "alpha beta") (.ok "gamma delta")).1 ≠ ""
    ∧ ((∃ o, (Except.ok "gamma delta" : Except String String) = .ok o ∧
          ((extract_text_with_ocr_fallback (.ok "alpha beta") (.ok "gamma delta")).1
              = stdText (.ok "alpha beta") ++ "\n\n" ++ o
            ∨ isFailPlaceholder
                (extract_text_with_ocr_fallback (.ok "alpha beta") (.ok "gamma delta")).1
                = true))
      ∨ (∃ m, (Except.ok "gamma delta" : Except String String) = .error m ∧
          ((extract_text_with_ocr_fallback (.ok "alpha beta") (.ok "gamma delta")).1
              = stdText (.ok "alpha beta")
            ∨ isFailPlaceholder
                (extract_text_with_ocr_fallback (.ok "alpha beta") (.ok "gamma delta")).1
                = true))) :=
  C5_extraction_total_nonempty (.ok "alpha beta") (.ok "gamma delta")
    (fun t h => by cases h; decide) (fun t h => by cases h; decide)

/-! ### C7 -/

/-- C7: deleting an untracked `source_file_id` (the ledger lookup succeeds
with zero rows) returns the no-op success `notTracked` (`found=False`),
raises nothing, and makes no vector-index call: the trace holds only the
ledger lookup. -/
theorem C7_delete_untracked_noop (env : DEnv) (fid : String)
    (h : env.ledgerRows = .ok 0) :
    delete_file env fid = (.ok .notTracked, [.ledgerSelect fid]) := by
  unfold delete_file
  rw [h]
  rfl

/-- C7 (witness): the theorem applied to a concrete environment with no
ledger row. -/
theorem C7_witness :
    delete_file dEnvUntracked "file9" = (.ok .notTracked, [.ledgerSelect "file9"]) :=
  C7_delete_untracked_noop dEnvUntracked "file9" rfl

/-! ### C8 -/

/-- C8: deleting a tracked file (ledger lookup returns rows, ledger delete
succeeds, Pinecone configuration present as the handler requires) deletes
the ledger entry first, then attempts a vector-delete filtered on that
`source_file_id`, and returns success whatever the outcome of the
vector-delete attempts (their failure only adds the direct-Pinecone fallback
attempt to the trace). -/
theorem C8_delete_tracked (env : DEnv) (fid : String) (n : Nat)
    (hrows : env.ledgerRows = .ok n) (hn : n ≠ 0)
    (hdel : env.ledgerDelete = .ok ()) (hconf : env.pineconeConfigured = true) :
    (delete_file env fid).1 = .ok .deleted
    ∧ ((delete_file env fid).2
          = [.ledgerSelect fid, .ledgerDelete fid, .vectorDeleteIdx fid]
        ∨ (delete_file env fid).2
          = [.ledgerSelect fid, .ledgerDelete fid, .vectorDeleteIdx fid,
             .vectorDeletePc fid]) := by
  obtain ⟨m, rfl⟩ : ∃ m, n = m + 1 := ⟨n - 1, by omega⟩
  unfold delete_file
  rw [hrows, hdel, hconf]
  cases hI : env.idxDelete with
  | ok u => exact ⟨rfl, .inl rfl⟩
  | error e => exact ⟨rfl, .inr rfl⟩

/-- C8 (witness): the theorem applied to a concrete tracked file whose two
vector-delete attempts both fail; deletion still succeeds. -/
theorem C8_witness :
    (delete_file dEnvTracked "file7").1 = .ok .deleted
    ∧ ((delete_file dEnvTracked "file7").2
          = [.ledgerSelect "file7", .ledgerDelete "file7", .vectorDeleteIdx "file7"]
        ∨ (delete_file dEnvTracked "file7").2
          = [.ledgerSelect "file7", .ledgerDelete "file7", .vectorDeleteIdx "file7",
             .vectorDeletePc "file7"]) :=
  C8_delete_tracked dEnvTracked "file7" 1 rfl (by decide) rfl rfl

/-! ### C9 -/

/-- C9: the query handler never raises — for every environment the embedded
handler returns `.ok` — and in particular an unavailable vector index yields
the structured `service_unavailable` result, while a raise during query
execution yields the structured `query_error` result. -/
theorem C9_query_never_raises (env : QEnv) (r : QReq) :
    exceptOk (query env r) = true
    ∧ query ⟨false, env.engine, env.logOutcome, env.queryOutcome⟩ r
        = .ok (.errorResult "service_unavailable")
    ∧ (∀ m, query ⟨true, .ok (), env.logOutcome, .error m⟩ r
        = .ok (.errorResult "query_error")) := by
  refine ⟨?_, rfl, fun m => rfl⟩
  unfold query exceptOk
  cases env.indexAvailable with
  | false => rfl
  | true =>
    cases env.engine with
    | error e => rfl
    | ok u =>
      cases env.queryOutcome with
      | error e => rfl
      | ok a => rfl

/-- C9 (witness): the theorem applied to a concrete environment whose query
execution raises. -/
theorem C9_witness :
    exceptOk (query qEnvBoom ⟨"q", none⟩) = true
    ∧ query ⟨false, qEnvBoom.engine, qEnvBoom.logOutcome, qEnvBoom.queryOutcome⟩ ⟨"q", none⟩
        = .ok (.errorResult "service_unavailable")
    ∧ (∀ m, query ⟨true, .ok (), qEnvBoom.logOutcome, .error m⟩ ⟨"q", none⟩
        = .ok (.errorResult "query_error")) :=
  C9_query_never_raises qEnvBoom ⟨"q", none⟩

/-! ### C3 -/

/-- C3 (counterexample): a request declaring 40 MiB but missing `file_id` is
rejected with HTTP 400 (missing required file information), not with the
claimed HTTP 413, although its declared size exceeds the 30 MiB limit; no
side effect occurs. -/
theorem C3_counterexample :
    process_file (mkFirstOk ⟨5, false, some "x"⟩) (some reqC3)
      = ⟨.error ⟨400, .missingFields⟩, []⟩
    ∧ MAX_SIZE_BYTES < reqC3.size.getD 0
    ∧ (⟨400, .missingFields⟩ : HttpErr) ≠ ⟨413, .oversize⟩ := by decide

/-- C3 (amended): an ingestion request that carries the required file
information (truthy `file_id` and storage path) and declares a size above
30 MiB is rejected with HTTP 413 with an empty effect trace: no storage
download and no embedding-provider call happen.  (Oversized requests missing
required fields are rejected with HTTP 400 instead, likewise with no side
effect.) -/
theorem C3_oversize_rejected_before_side_effects (env : PEnv) (req : Req)
    (f p : String)
    (hf : req.file_id = some f) (hf0 : f ≠ "")
    (hp : req.supabase_file_path = some p) (hp0 : p ≠ "")
    (hs : MAX_SIZE_BYTES < req.size.getD 0) :
    process_file env (some req) = ⟨.error ⟨413, .oversize⟩, []⟩ := by
  simp [process_file, truthyStr, hf, hp, hf0, hp0, hs]

/-- C3 (witness): the theorem applied to a concrete well-formed request
declaring 30 MiB + 1 byte. -/
theorem C3_witness :
    process_file (mkFirstOk ⟨5, false, some "x"⟩) (some reqC3w)
      = ⟨.error ⟨413, .oversize⟩, []⟩ :=
  C3_oversize_rejected_before_side_effects (mkFirstOk ⟨5, false, some "x"⟩) reqC3w
    "f" "p" rfl (by decide) rfl (by decide) (by decide)

/-! ### C1 -/

/-- C1 (counterexample): with a mismatched embedding, the handler surfaces the
dimension-mismatch error (HTTP 500), but only after the batched upsert call
has been attempted: the trace contains the insertion call, contradicting the
claim that the error is raised before any upsert call. -/
theorem C1_counterexample :
    (process_file envC1 (some okReq)).result = .error ⟨500, .dimensionMismatch⟩
    ∧ Ev.insertCall 1 ∈ (process_file envC1 (some okReq)).trace := by decide

/-- C1 (amended): when the batched `insert_nodes` call fails with a message
containing "dimension", the handler raises the dimension-mismatch error kind
(HTTP 500, distinct from rate-limit and other indexing failures); the upsert
call is attempted first — the trace contains it — rather than the embedding
length being checked before any upsert. -/
theorem C1_dimension_classified_after_upsert (txt msg : String)
    (ck : String → List Chunk)
    (hmsg : strContains (pyLower msg) "dimension" = true) :
    (process_file (mkTextEnv txt ck (fun _ => .error msg)) (some okReq)).result
        = .error ⟨500, .dimensionMismatch⟩
    ∧ Ev.insertCall ((ck txt).length)
        ∈ (process_file (mkTextEnv txt ck (fun _ => .error msg)) (some okReq)).trace := by
  have hText : isTextLike "text/plain" = true := by decide
  have hcl : classifyIndexErr msg = ⟨500, .dimensionMismatch⟩ := by
    simp [classifyIndexErr, hmsg]
  simp [process_file, mkTextEnv, truthyStr, okReq, downloadPhase, downloadChain,
    extractStage, indexStage, hText, hcl, MAX_SIZE_BYTES]

/-- C1 (witness): the amended theorem applied to a concrete Pinecone
dimension-mismatch message. -/
theorem C1_witness :
    (process_file
        (mkTextEnv "hello world" (fun _ => [chunk1])
          (fun _ => .error "Vector dimension 1536 does not match the dimension of the index 3072"))
        (some okReq)).result = .error ⟨500, .dimensionMismatch⟩
    ∧ Ev.insertCall 1
        ∈ (process_file
            (mkTextEnv "hello world" (fun _ => [chunk1])
              (fun _ => .error "Vector dimension 1536 does not match the dimension of the index 3072"))
            (some okReq)).trace :=
  C1_dimension_classified_after_upsert "hello world"
    "Vector dimension 1536 does not match the dimension of the index 3072"
    (fun _ => [chunk1]) (by decide)

/-! ### C2 -/

/-- C2 (counterexample): on a zero-chunk extraction the handler does return
success with zero chunks, but the batched insertion call is still made (with
the empty node list): the trace contains `insertCall 0`, contradicting the
claim that no vector upsert call is performed. -/
theorem C2_counterexample :
    (process_file envC2 (some okReq)).result = .ok 0
    ∧ Ev.insertCall 0 ∈ (process_file envC2 (some okReq)).trace := by decide

/-- C2 (amended): an ingestion request whose extracted text yields zero chunks
returns success with `chunks_processed = 0`; no embedding is computed, but
the batched insertion call is still invoked, with the empty node list
(followed by the ledger write), rather than being skipped. -/
theorem C2_zero_chunks_success (txt : String) (ck : String → List Chunk)
    (hck : ck txt = []) :
    process_file (mkTextEnv txt ck (fun _ => .ok ())) (some okReq)
      = ⟨.ok 0, [.download .regular "path1", .insertCall 0, .ledgerInsert]⟩ := by
  have hText : isTextLike "text/plain" = true := by decide
  simp [process_file, mkTextEnv, truthyStr, okReq, downloadPhase, downloadChain,
    extractStage, indexStage, hck, hText, MAX_SIZE_BYTES]

/-- C2 (witness): the amended theorem applied to the empty text with an empty
chunking. -/
theorem C2_witness :
    process_file (mkTextEnv "" (fun _ => []) (fun _ => .ok ())) (some okReq)
      = ⟨.ok 0, [.download .regular "path1", .insertCall 0, .ledgerInsert]⟩ :=
  C2_zero_chunks_success "" (fun _ => []) rfl

/-! ### C6 -/

/-- C6 (counterexample): every candidate path fails and every underlying
storage error says "Object not found", yet the request fails with the
generic HTTP 500 download error (the synthesized all-paths-failed message
matches neither the not-found nor the permission classification), not with
the claimed not-found error. -/
theorem C6_counterexample :
    (process_file (mkFailEnv "Object not found" "Object not found" "Object not found")
        (some okReq)).result = .error ⟨500, .downloadOther⟩
    ∧ (process_file (mkFailEnv "Object not found" "Object not found" "Object not found")
        (some okReq)).result ≠ .error ⟨404, .notFound⟩ := by decide

/-- C6 (amended): acquisition tries the ordered candidates — declared path,
`user_id/file_id`, bare `file_id`, each under regular then service
credentials — stopping at the first success; when every candidate fails
(with `user_id` present) the handler raises the generic HTTP 500 download
error produced by classifying the synthesized all-paths-failed message,
not a not-found error, whatever the underlying errors were. -/
theorem C6_exhaustion_ordered (e₁ e₂ e₃ : String) :
    (process_file (mkFailEnv e₁ e₂ e₃) (some okReq)).result
        = .error ⟨500, .downloadOther⟩
    ∧ (process_file (mkFailEnv e₁ e₂ e₃) (some okReq)).trace
        = [.download .regular "path1", .download .service "path1",
           .download .regular "user1/fid1", .download .service "user1/fid1",
           .download .regular "fid1", .download .service "fid1"]
    ∧ (∀ c : Content, 0 < c.size →
        dlEvents (process_file (mkFirstOk c) (some okReq)).trace
          = [.download .regular "path1"]) := by
  refine ⟨rfl, rfl, ?_⟩
  intro c hc
  obtain ⟨cs, cm, cu⟩ := c
  have hcs : cs ≠ 0 := by
    intro h; rw [h] at hc; exact Nat.lt_irrefl 0 hc
  have hText : isTextLike "text/plain" = true := by decide
  cases cu with
  | some s =>
    simp [process_file, mkFirstOk, truthyStr, okReq, downloadPhase, downloadChain,
      extractStage, indexStage, dlEvents, isDownloadEv, hcs, hText, MAX_SIZE_BYTES,
      List.filter]
  | none =>
    simp [process_file, mkFirstOk, truthyStr, okReq, downloadPhase, downloadChain,
      extractStage, indexStage, dlEvents, isDownloadEv, hcs, hText, MAX_SIZE_BYTES,
      List.filter]

/-- C6 (witness): the amended theorem applied to concrete failure messages and
a concrete first-attempt success. -/
theorem C6_witness :
    (process_file (mkFailEnv "ea" "eb" "ec") (some okReq)).result
        = .error ⟨500, .downloadOther⟩
    ∧ dlEvents (process_file (mkFirstOk ⟨5, false, some "x"⟩) (some okReq)).trace
        = [.download .regular "path1"] :=
  ⟨(C6_exhaustion_ordered "ea" "eb" "ec").1,
   (C6_exhaustion_ordered "ea" "eb" "ec").2.2 ⟨5, false, some "x"⟩ (by decide)⟩

/-! ### C10 -/

theorem classifyDownloadErr_ne_oversize (m : String) :
    classifyDownloadErr m ≠ ⟨413, .oversize⟩ := by
  simp only [classifyDownloadErr]
  split_ifs <;> decide

theorem classifyIndexErr_ne_oversize (m : String) :
    classifyIndexErr m ≠ ⟨413, .oversize⟩ := by
  simp only [classifyIndexErr]
  split_ifs <;> decide

theorem downloadPhase_error_form (env : PEnv) (o f : String) (u : Option String)
    (e : HttpErr) (he : (downloadPhase env o f u).1 = .error e) :
    ∃ m, e = classifyDownloadErr m := by
  simp only [downloadPhase] at he
  rcases hc : (downloadChain env o f u).1 with m | c
  · simp only [hc, Except.error.injEq] at he
    exact ⟨m, he.symm⟩
  · by_cases hz : c.size = 0
    · simp only [hc, if_pos hz, Except.error.injEq] at he
      exact ⟨emptyRespMsg, he.symm⟩
    · simp only [hc, if_neg hz] at he
      simp at he

theorem indexStage_error_form (env : PEnv) (f t : String) (e : HttpErr)
    (he : (indexStage env f t).1 = .error e) :
    ∃ m, e = classifyIndexErr m := by
  simp only [indexStage] at he
  rcases hi : env.insertNodes (List.map (stamp f) (env.chunker t)) with m | u
  · simp only [hi, Except.error.injEq] at he
    exact ⟨m, he.symm⟩
  · simp only [hi] at he
    simp at he

/-- C10: the 30 MiB validation applies only to the caller-declared size.
First: whenever the declared size (defaulting to 0 when absent) is within
the limit, the handler never raises the 413 oversize error, whatever the
environment — in particular whatever the length of the downloaded bytes.
Second: a request omitting its size is fully processed regardless of the
true downloaded size `L`: the download is attempted and ingestion succeeds. -/
theorem C10_declared_size_only :
    (∀ (env : PEnv) (req : Req), req.size.getD 0 ≤ MAX_SIZE_BYTES →
        (process_file env (some req)).result ≠ .error ⟨413, .oversize⟩)
    ∧ (∀ L, 0 < L →
        process_file (bigEnv L) (some okReqNoSize)
          = ⟨.ok 1, [.download .regular "path1", .embed 1, .insertCall 1,
                     .ledgerInsert]⟩) := by
  constructor
  · intro env req h
    rcases h1 : truthyStr req.file_id with _ | f
    · simp [process_file, h1]
    · rcases h2 : truthyStr req.supabase_file_path with _ | p
      · simp [process_file, h1, h2]
      · have hns : ¬(req.size.getD 0 > MAX_SIZE_BYTES) := by omega
        simp only [process_file, h1, h2, if_neg hns]
        split
        next e heq =>
          intro hcontra
          injection hcontra with h'
          obtain ⟨m, hm⟩ := downloadPhase_error_form env p f (truthyStr req.user_id) e heq
          exact classifyDownloadErr_ne_oversize m (hm.symm.trans h')
        next c heq =>
          split
          next u heq2 =>
            intro hcontra
            injection hcontra with h'
            exact absurd h' (by decide)
          next txt heq2 =>
            intro hcontra
            have hx : (indexStage env f txt).1 = Except.error ⟨413, .oversize⟩ := hcontra
            obtain ⟨m, hm⟩ := indexStage_error_form env f txt ⟨413, .oversize⟩ hx
            exact classifyIndexErr_ne_oversize m hm.symm
  · intro L hL
    have hL0 : L ≠ 0 := by omega
    have hText : isTextLike "text/plain" = true := by decide
    simp [process_file, bigEnv, okReqNoSize, truthyStr, downloadPhase, downloadChain,
      extractStage, indexStage, chunk1, stamp, setMeta, hL0, hText, MAX_SIZE_BYTES]

/-- C10 (witness): the theorem applied to a size-omitting request whose true
downloaded size is 40 MiB — well above the limit — and still processed. -/
theorem C10_witness :
    (process_file (bigEnv 5) (some okReqNoSize)).result ≠ .error ⟨413, .oversize⟩
    ∧ process_file (bigEnv (40 * 1024 * 1024)) (some okReqNoSize)
        = ⟨.ok 1, [.download .regular "path1", .embed 1, .insertCall 1,
                   .ledgerInsert]⟩ :=
  ⟨C10_declared_size_only.1 (bigEnv 5) okReqNoSize (by decide),
   C10_declared_size_only.2 (40 * 1024 * 1024) (by decide)⟩

end LlamaBackend
